import Mathlib

/-!
Verification of the Cortex component backend (FastAPI proxy):
a shallow embedding of the SSE relay with field redaction
(backend/app/agent.py) and of the signed-session codec and guard
(backend/app/auth.py), with theorems settling the specified properties.
-/

set_option maxHeartbeats 1000000

namespace CortexRelay

/-! ## JSON-like trees

The values produced by json.loads and consumed by filter_event_data.
A mutual family is used instead of a nested List so that every traversal
is structural and computable by the kernel. Numbers are modelled as
integers; no claim exercises floating point. -/

mutual
inductive Json where
  | null : Json
  | bool (b : Bool) : Json
  | num (n : Int) : Json
  | str (s : String) : Json
  | arr (items : JsonList) : Json
  | obj (members : JsonMembers) : Json
inductive JsonList where
  | nil : JsonList
  | cons (hd : Json) (tl : JsonList) : JsonList
inductive JsonMembers where
  | nil : JsonMembers
  | cons (key : String) (value : Json) (tl : JsonMembers) : JsonMembers
end

/-! ## The field filter (agent.py lines 43 to 86) -/

/-- Embeds should_filter_field (agent.py lines 43 to 55): a field is
filtered when settings.REMOVE_SQL_FROM_RESPONSE is set and the name is
exactly "sql". -/
def should_filter_field (removeSql : Bool) (field_name : String) : Bool :=
  removeSql && field_name = "sql"

mutual
/-- Embeds the dict-iteration body of filter_event_data (agent.py lines 72
to 84), reached only when settings.REMOVE_SQL_FROM_RESPONSE is true: keys
equal to "sql" are dropped; dict values recurse; list values are handled by
filterListElems; any other value is kept unchanged. -/
def filterItems : JsonMembers → JsonMembers
  | .nil => .nil
  | .cons key value rest =>
    if key = "sql" then filterItems rest
    else match value with
      | Json.obj ms => .cons key (Json.obj (filterItems ms)) (filterItems rest)
      | Json.arr l => .cons key (Json.arr (filterListElems l)) (filterItems rest)
      | v => .cons key v (filterItems rest)
/-- Embeds the list comprehension of filter_event_data (agent.py lines 79
to 82): an element that is a dict is filtered recursively, every other
element (scalars, and also nested lists) is kept as is. -/
def filterListElems : JsonList → JsonList
  | .nil => .nil
  | .cons (Json.obj ms) rest => .cons (Json.obj (filterItems ms)) (filterListElems rest)
  | .cons v rest => .cons v (filterListElems rest)
end

/-- Embeds filter_event_data (agent.py lines 58 to 86). The Boolean
removeSql stands for settings.REMOVE_SQL_FROM_RESPONSE. The result is none
exactly when the Python code raises: with filtering enabled the code calls
event_data.items(), which raises AttributeError when event_data is not a
dict. -/
def filter_event_data (removeSql : Bool) (event_data : Json) : Option Json :=
  if removeSql = false then some event_data
  else match event_data with
    | Json.obj ms => some (Json.obj (filterItems ms))
    | _ => none

mutual
/-- Modelled from the spec: the traversal rule of section 4.3 for
FieldFilter with blocked key set consisting of the single key "sql" - for
a mapping, drop matching keys and recursively filter surviving values; for
a sequence, recursively filter each element; for a scalar, return
unchanged. Used as the comparison point for the code filter. -/
def filterSpec : Json → Json
  | Json.obj ms => Json.obj (filterSpecMembers ms)
  | Json.arr l => Json.arr (filterSpecElems l)
  | v => v
/-- Modelled from the spec: mapping case of the spec filter. -/
def filterSpecMembers : JsonMembers → JsonMembers
  | .nil => .nil
  | .cons key value rest =>
    if key = "sql" then filterSpecMembers rest
    else .cons key (filterSpec value) (filterSpecMembers rest)
/-- Modelled from the spec: sequence case of the spec filter. -/
def filterSpecElems : JsonList → JsonList
  | .nil => .nil
  | .cons v rest => .cons (filterSpec v) (filterSpecElems rest)
end

mutual
/-- True when the key k occurs as a mapping key anywhere in the tree. -/
def containsKey (k : String) : Json → Bool
  | Json.obj ms => containsKeyMembers k ms
  | Json.arr l => containsKeyElems k l
  | _ => false
/-- Member-list case of containsKey. -/
def containsKeyMembers (k : String) : JsonMembers → Bool
  | .nil => false
  | .cons key value rest => key = k || containsKey k value || containsKeyMembers k rest
/-- Element-list case of containsKey. -/
def containsKeyElems (k : String) : JsonList → Bool
  | .nil => false
  | .cons v rest => containsKey k v || containsKeyElems k rest
end

mutual
/-- True when the tree has no sequence occurring directly as an element of
another sequence; this is exactly the shape on which the code filter and
the spec filter coincide. -/
def noArrInArr : Json → Bool
  | Json.obj ms => noArrInArrMembers ms
  | Json.arr l => noArrInArrElems l
  | _ => true
/-- Member-list case of noArrInArr. -/
def noArrInArrMembers : JsonMembers → Bool
  | .nil => true
  | .cons _ value rest => noArrInArr value && noArrInArrMembers rest
/-- Element-list case of noArrInArr: elements may not themselves be
sequences. -/
def noArrInArrElems : JsonList → Bool
  | .nil => true
  | .cons (Json.arr _) _ => false
  | .cons v rest => noArrInArr v && noArrInArrElems rest
end

/-! ## Python string primitives

Models of the str methods used by the relay loop, defined over the
character list of the Lean string so that their behaviour is explicit. -/

/-- Characters stripped by Python str.strip with no argument. -/
def pyIsSpace (c : Char) : Bool :=
  c = ' ' || c = '\t' || c = '\n' || c = '\x0d' || c = '\x0b' || c = '\x0c'

/-- Model of str.strip on a character list. -/
def pyStripChars (l : List Char) : List Char :=
  ((l.dropWhile pyIsSpace).reverse.dropWhile pyIsSpace).reverse

/-- Model of str.strip. -/
def pyStrip (s : String) : String := String.mk (pyStripChars s.data)

/-- Model of the slice s[n:]. -/
def pyDrop (s : String) (n : Nat) : String := String.mk (s.data.drop n)

/-- Model of str.startswith. -/
def pyStartsWith (s p : String) : Bool := p.data.isPrefixOf s.data

/-- Number of newline characters in a string, used to separate ordinary
relay chunks from the synthetic terminal error event. -/
def countNl (s : String) : Nat := s.data.count '\n'

/-! ## Model of json.loads

A fuel-indexed recursive-descent parser over the character list,
modelling Python json.loads restricted to null, booleans, integers,
strings with the basic escapes, arrays and objects. Floats and unicode
escapes are rejected by the model; a rejection only makes the relay take
its non-JSON passthrough branch. -/

/-- JSON whitespace accepted between tokens. -/
def jsonWs (c : Char) : Bool := c = ' ' || c = '\t' || c = '\n' || c = '\x0d'

/-- Drops leading JSON whitespace. -/
def skipWs (l : List Char) : List Char := l.dropWhile jsonWs

/-- Numeric value of a decimal digit character. -/
def digitVal (c : Char) : Option Nat :=
  if '0' ≤ c ∧ c ≤ '9' then some (c.toNat - 48) else none

/-- Consumes a run of digits, accumulating their value. -/
def parseDigitsAux : List Char → Nat → Nat × List Char
  | [], acc => (acc, [])
  | c :: rest, acc =>
    match digitVal c with
    | some d => parseDigitsAux rest (acc * 10 + d)
    | none => (acc, c :: rest)

/-- Parses an optionally signed integer literal; a following dot or
exponent marker makes the whole parse fail, so that floats are not
mistaken for integers. -/
def parseNum : List Char → Option (Int × List Char)
  | '-' :: c :: rest =>
    match digitVal c with
    | some d =>
      match parseDigitsAux rest d with
      | (n, c2 :: rem2) =>
        if c2 = '.' || c2 = 'e' || c2 = 'E' then none
        else some (-(Int.ofNat n), c2 :: rem2)
      | (n, []) => some (-(Int.ofNat n), [])
    | none => none
  | c :: rest =>
    match digitVal c with
    | some d =>
      match parseDigitsAux rest d with
      | (n, c2 :: rem2) =>
        if c2 = '.' || c2 = 'e' || c2 = 'E' then none
        else some (Int.ofNat n, c2 :: rem2)
      | (n, []) => some (Int.ofNat n, [])
    | none => none
  | [] => none

/-- Parses the body of a string literal after the opening quote, handling
the single-character escapes; returns the decoded characters and the
remainder after the closing quote. -/
def parseStringChars : Nat → List Char → Option (List Char × List Char)
  | 0, _ => none
  | _ + 1, [] => none
  | fuel + 1, c :: rest =>
    if c = '\"' then some ([], rest)
    else if c = '\\' then
      match rest with
      | [] => none
      | e :: rest2 =>
        let dec : Option Char :=
          if e = '\"' then some '\"'
          else if e = '\\' then some '\\'
          else if e = '/' then some '/'
          else if e = 'n' then some '\n'
          else if e = 't' then some '\t'
          else if e = 'r' then some '\x0d'
          else if e = 'b' then some '\x08'
          else if e = 'f' then some '\x0c'
          else none
        match dec with
        | some ch =>
          match parseStringChars fuel rest2 with
          | some (cs, rem) => some (ch :: cs, rem)
          | none => none
        | none => none
    else
      match parseStringChars fuel rest with
      | some (cs, rem) => some (c :: cs, rem)
      | none => none

mutual
/-- Fuel-indexed parser for a JSON value. -/
def parseVal : Nat → List Char → Option (Json × List Char)
  | 0, _ => none
  | fuel + 1, l =>
    match skipWs l with
    | [] => none
    | c :: rest =>
      if c = '{' then
        match skipWs rest with
        | '}' :: rem => some (Json.obj .nil, rem)
        | l2 => match parseMembers fuel l2 with
                | some (ms, rem) => some (Json.obj ms, rem)
                | none => none
      else if c = '[' then
        match skipWs rest with
        | ']' :: rem => some (Json.arr .nil, rem)
        | l2 => match parseElems fuel l2 with
                | some (es, rem) => some (Json.arr es, rem)
                | none => none
      else if c = '\"' then
        match parseStringChars (rest.length + 1) rest with
        | some (cs, rem) => some (Json.str (String.mk cs), rem)
        | none => none
      else if c = 't' then
        if ['r', 'u', 'e'].isPrefixOf rest then some (Json.bool true, rest.drop 3) else none
      else if c = 'f' then
        if ['a', 'l', 's', 'e'].isPrefixOf rest then some (Json.bool false, rest.drop 4) else none
      else if c = 'n' then
        if ['u', 'l', 'l'].isPrefixOf rest then some (Json.null, rest.drop 3) else none
      else
        match parseNum (c :: rest) with
        | some (n, rem) => some (Json.num n, rem)
        | none => none
/-- Fuel-indexed parser for the members of an object, positioned at the
first key. -/
def parseMembers : Nat → List Char → Option (JsonMembers × List Char)
  | 0, _ => none
  | fuel + 1, l =>
    match skipWs l with
    | '\"' :: rest =>
      match parseStringChars (rest.length + 1) rest with
      | some (kcs, rem) =>
        match skipWs rem with
        | ':' :: rem2 =>
          match parseVal fuel rem2 with
          | some (v, rem3) =>
            match skipWs rem3 with
            | ',' :: rem4 =>
              match parseMembers fuel rem4 with
              | some (ms, rem5) => some (.cons (String.mk kcs) v ms, rem5)
              | none => none
            | '}' :: rem4 => some (.cons (String.mk kcs) v .nil, rem4)
            | _ => none
          | none => none
        | _ => none
      | none => none
    | _ => none
/-- Fuel-indexed parser for the elements of an array, positioned at the
first element. -/
def parseElems : Nat → List Char → Option (JsonList × List Char)
  | 0, _ => none
  | fuel + 1, l =>
    match parseVal fuel l with
    | some (v, rem) =>
      match skipWs rem with
      | ',' :: rem2 =>
        match parseElems fuel rem2 with
        | some (es, rem3) => some (.cons v es, rem3)
        | none => none
      | ']' :: rem2 => some (.cons v .nil, rem2)
      | _ => none
    | none => none
end

/-- Model of json.loads: parse one value and require only whitespace after
it. The fuel bound is generous enough for any input of the given length. -/
def json_loads (s : String) : Option Json :=
  match parseVal (2 * s.data.length + 2) s.data with
  | some (j, rem) => if skipWs rem = [] then some j else none
  | none => none

/-! ## Model of json.dumps

Serialization with the default Python separators (comma-space and
colon-space) and the standard short escapes; other control characters use
the four-digit hexadecimal escape form. Non-ascii characters are left
unescaped by the model (Python would escape them too); no claim depends on
that difference and neither direction introduces a newline. -/

/-- Decimal digit character. -/
def digitChar (n : Nat) : Char := Char.ofNat (48 + n)

/-- Decimal digits of a natural number, fuel-indexed. -/
def natToDigits : Nat → Nat → List Char
  | 0, _ => []
  | fuel + 1, n =>
    if n < 10 then [digitChar n]
    else natToDigits fuel (n / 10) ++ [digitChar (n % 10)]

/-- Decimal rendering of an integer. -/
def intToStr (n : Int) : String :=
  if n < 0 then String.mk ('-' :: natToDigits (n.natAbs + 1) n.natAbs)
  else String.mk (natToDigits (n.natAbs + 1) n.natAbs)

/-- Lowercase hexadecimal digit character. -/
def hexDigitChar (n : Nat) : Char :=
  Char.ofNat (if n < 10 then 48 + n else 87 + n)

/-- JSON escape of one character. -/
def escapeChar (c : Char) : List Char :=
  if c = '\"' then ['\\', '\"']
  else if c = '\\' then ['\\', '\\']
  else if c = '\n' then ['\\', 'n']
  else if c = '\x0d' then ['\\', 'r']
  else if c = '\t' then ['\\', 't']
  else if c.toNat < 32 then
    ['\\', 'u', '0', '0', hexDigitChar (c.toNat / 16), hexDigitChar (c.toNat % 16)]
  else [c]

/-- Escape of every character of a string body. -/
def escapeBody : List Char → List Char
  | [] => []
  | c :: rest => escapeChar c ++ escapeBody rest

/-- Quoted, escaped JSON string literal. -/
def escapeString (s : String) : String :=
  String.mk ('\"' :: escapeBody s.data ++ ['\"'])

mutual
/-- Model of json.dumps with the default separators. -/
def json_dumps : Json → String
  | Json.null => "null"
  | Json.bool true => "true"
  | Json.bool false => "false"
  | Json.num n => intToStr n
  | Json.str s => escapeString s
  | Json.arr l => "[" ++ dumpsElems l ++ "]"
  | Json.obj ms => "\x7b" ++ dumpsMembers ms ++ "\x7d"
/-- Comma-space separated renderings of array elements. -/
def dumpsElems : JsonList → String
  | .nil => ""
  | .cons v .nil => json_dumps v
  | .cons v rest => json_dumps v ++ ", " ++ dumpsElems rest
/-- Comma-space separated renderings of object members. -/
def dumpsMembers : JsonMembers → String
  | .nil => ""
  | .cons key value .nil => escapeString key ++ ": " ++ json_dumps value
  | .cons key value rest =>
      escapeString key ++ ": " ++ json_dumps value ++ ", " ++ dumpsMembers rest
end

/-! ## The SSE relay (agent.py lines 89 to 148)

stream_agent_response is an async generator; it is modelled as a function
from the observable upstream behaviour to the sequence of chunks it
yields. The httpx layer is modelled at its interface: the upstream either
fails on connection with httpx.RequestError, or produces a status code, a
body (read only on the non-200 path), the lines delivered by aiter_lines,
and optionally a terminal httpx.RequestError after those lines. -/

/-- Embeds the except branch of agent.py lines 143 to 148: the single
synthetic terminal SSE error event. -/
def errorEvent (msg : String) : String :=
  "event: error\ndata: " ++ json_dumps (Json.obj (.cons "error" (Json.str msg) .nil)) ++ "\n\n"

/-- Embeds the body of the per-line loop (agent.py lines 121 to 141).
Every branch of the Python loop yields exactly one chunk; the result is
none exactly when the iteration raises, which happens only through
filter_event_data on a non-dict JSON payload (AttributeError, caught by
no handler in the function). -/
def processLine (removeSql : Bool) (line : String) : Option String :=
  if pyStrip line ≠ "" then
    if pyStartsWith line "event:" then
      some ("event: " ++ pyStrip (pyDrop line 6) ++ "\n")
    else if pyStartsWith line "data:" then
      match json_loads (pyStrip (pyDrop line 5)) with
      | some data =>
        match filter_event_data removeSql data with
        | some filtered => some ("data: " ++ json_dumps filtered ++ "\n")
        | none => none
      | none => some ("data: " ++ pyStrip (pyDrop line 5) ++ "\n")
    else some (line ++ "\n")
  else some "\n"

/-- Runs the per-line loop over the delivered lines; the Boolean records
whether the loop crashed (an uncaught exception), in which case the chunks
emitted before the crash are kept and no later line is read. -/
def runLines (removeSql : Bool) : List String → List String × Bool
  | [] => ([], false)
  | line :: rest =>
    match processLine removeSql line with
    | none => ([], true)
    | some out =>
      match runLines removeSql rest with
      | (outs, crashed) => (out :: outs, crashed)

/-- Observable behaviour of the upstream call. -/
inductive Upstream where
  | connectError (msg : String)
  | response (status : Nat) (body : String) (lines : List String) (midErr : Option String)

/-- Observable result of one relay invocation: an HTTPException raised
before any chunk was yielded (the pre-flight rejection path), a normally
produced chunk sequence, or a chunk sequence cut short by an uncaught
exception inside the generator. -/
inductive StreamResult where
  | preflight (status : Nat) (detail : String)
  | chunks (outs : List String)
  | crash (outs : List String)

/-- Embeds stream_agent_response (agent.py lines 89 to 148). A connection
error is caught by the except branch and yields the single synthetic error
event. A non-200 status raises HTTPException before any yield; the
exception is not an httpx.RequestError, so the except branch does not
catch it. Otherwise the lines are relayed one by one; a trailing transport
error is caught by the except branch and yields the terminal error event,
unless the loop already died of an uncaught exception. -/
def stream_agent_response (removeSql : Bool) : Upstream → StreamResult
  | Upstream.connectError msg => StreamResult.chunks [errorEvent msg]
  | Upstream.response status body lines midErr =>
    if status ≠ 200 then
      StreamResult.preflight status ("Cortex API error: " ++ body)
    else
      match runLines removeSql lines, midErr with
      | (outs, true), _ => StreamResult.crash outs
      | (outs, false), none => StreamResult.chunks outs
      | (outs, false), some msg => StreamResult.chunks (outs ++ [errorEvent msg])

/-! ## The session codec and guard (auth.py)

The token byte string is produced and checked entirely by the itsdangerous
library; the repository code only calls dumps and loads and maps the two
library exceptions to None. The library is therefore modelled at its
interface: a token is the signed triple of payload, issuance timestamp and
keyed signature, and the signature function (HMAC in the library) is an
arbitrary function of the secret, the payload and the timestamp. -/

/-- A signed session token as handled by itsdangerous
URLSafeTimedSerializer: payload, issuance timestamp, and the keyed
signature computed over both. -/
structure SignedToken where
  payload : Json
  ts : Nat
  tag : Nat

/-- The signing configuration: the process-wide secret
(settings.SESSION_SECRET_KEY) and the keyed signature function. -/
structure Codec where
  key : String
  mac : String → Json → Nat → Nat

/-- The two rejection modes of the library loads call, the exceptions
caught in auth.py line 58. -/
inductive SigErr where
  | badSignature : SigErr
  | signatureExpired : SigErr

/-- Modelled from the spec: itsdangerous URLSafeTimedSerializer.dumps, the
library call in auth.py line 42 (external to src/): embeds the payload and
the current time and attaches the keyed signature. -/
def serializer_dumps (c : Codec) (payload : Json) (now : Nat) : SignedToken :=
  ⟨payload, now, c.mac c.key payload now⟩

/-- Modelled from the spec: itsdangerous URLSafeTimedSerializer.loads, the
library call in auth.py line 56 (external to src/). The signature is
checked before the timestamp, per section 4.1 of the spec; with a valid
signature the token is rejected exactly when the elapsed time now - ts
exceeds max_age. -/
def serializer_loads (c : Codec) (t : SignedToken) (max_age now : Nat) : Except SigErr Json :=
  if t.tag ≠ c.mac c.key t.payload t.ts then Except.error SigErr.badSignature
  else if now - t.ts > max_age then Except.error SigErr.signatureExpired
  else Except.ok t.payload

/-- Model of dict.get on the members of a JSON object. -/
def jsonGetMembers : JsonMembers → String → Option Json
  | .nil, _ => none
  | .cons key value rest, k => if key = k then some value else jsonGetMembers rest k

/-- Model of dict.get: the value at the key, or none. Every payload
reached by the claims is an object, matching the dict type produced by
create_session_cookie. -/
def jsonGet : Json → String → Option Json
  | Json.obj ms, k => jsonGetMembers ms k
  | _, _ => none

/-- Python truthiness of a JSON value, as tested by the guard condition
in auth.py line 81. -/
def pyTruthy : Json → Bool
  | Json.null => false
  | Json.bool b => b
  | Json.num n => n ≠ 0
  | Json.str s => s ≠ ""
  | Json.arr JsonList.nil => false
  | Json.arr _ => true
  | Json.obj JsonMembers.nil => false
  | Json.obj _ => true

/-- Embeds create_session_cookie (auth.py lines 32 to 42): sign the dict
holding the username. The issuance time is the serializer state made
explicit. -/
def create_session_cookie (c : Codec) (now : Nat) (username : String) : SignedToken :=
  serializer_dumps c (Json.obj (.cons "username" (Json.str username) .nil)) now

/-- Embeds verify_session_cookie (auth.py lines 45 to 59): decode through
the library, return the username entry of the payload, and collapse both
library exceptions to none. The max_age argument stands for
settings.SESSION_MAX_AGE. -/
def verify_session_cookie (c : Codec) (max_age now : Nat) (cookie_value : SignedToken) : Option Json :=
  match serializer_loads c cookie_value max_age now with
  | Except.ok data => jsonGet data "username"
  | Except.error _ => none

/-- Embeds get_current_user (auth.py lines 62 to 84). The session argument
is the optional cookie value; none models an absent cookie (the falsy
check on line 77). The error value is the HTTPException status and detail
returned to the caller. -/
def get_current_user (c : Codec) (max_age now : Nat) (session : Option SignedToken) :
    Except (Nat × String) Json :=
  match session with
  | none => Except.error (401, "Not authenticated")
  | some t =>
    match verify_session_cookie c max_age now t with
    | none => Except.error (401, "Invalid or expired session")
    | some username =>
      if pyTruthy username then Except.ok username
      else Except.error (401, "Invalid or expired session")

/-! ## Concrete instances used by counterexamples and witnesses -/

/-- A depth-3 tree with the blocked key inside a sequence nested directly
inside another sequence. -/
def c1ex : Json :=
  Json.obj (.cons "a"
    (Json.arr (.cons (Json.arr (.cons (Json.obj (.cons "sql" Json.null .nil)) .nil)) .nil)) .nil)

/-- A concrete signing configuration for witnesses: the signature of a
payload issued at time ts is ts + 7. -/
def exCodec : Codec := ⟨"secret", fun _ _ ts => ts + 7⟩

/-- A token whose signature does not match under exCodec. -/
def badTok : SignedToken := ⟨Json.obj (.cons "username" (Json.str "alice") .nil), 0, 0⟩

/-- A correctly signed token under exCodec issued at time 0. -/
def oldTok : SignedToken := ⟨Json.obj (.cons "username" (Json.str "alice") .nil), 0, 7⟩

/-- A depth-3 member list mixing mappings inside a sequence with a sibling
blocked key, containing no sequence directly inside a sequence. -/
def c1wit : JsonMembers :=
  .cons "a"
    (Json.arr (.cons (Json.obj (.cons "sql" Json.null (.cons "b" (Json.num 2) .nil))) .nil))
    (.cons "sql" (Json.str "x") .nil)

/-! ## Properties of the field filter -/

mutual
theorem filterSpec_no_sql (j : Json) : containsKey "sql" (filterSpec j) = false := by
  match j with
  | Json.obj ms => simpa [filterSpec, containsKey] using filterSpecMembers_no_sql ms
  | Json.arr l => simpa [filterSpec, containsKey] using filterSpecElems_no_sql l
  | Json.null => rfl
  | Json.bool b => rfl
  | Json.num n => rfl
  | Json.str s => rfl
theorem filterSpecMembers_no_sql (ms : JsonMembers) :
    containsKeyMembers "sql" (filterSpecMembers ms) = false := by
  match ms with
  | .nil => rfl
  | .cons key value rest =>
    by_cases h : key = "sql"
    · simpa [filterSpecMembers, h] using filterSpecMembers_no_sql rest
    · simp [filterSpecMembers, h, containsKeyMembers, filterSpec_no_sql value,
            filterSpecMembers_no_sql rest]
theorem filterSpecElems_no_sql (l : JsonList) :
    containsKeyElems "sql" (filterSpecElems l) = false := by
  match l with
  | .nil => rfl
  | .cons v rest =>
    simp [filterSpecElems, containsKeyElems, filterSpec_no_sql v, filterSpecElems_no_sql rest]
end

mutual
theorem filterItems_eq_spec (ms : JsonMembers) (h : noArrInArrMembers ms = true) :
    filterItems ms = filterSpecMembers ms := by
  match ms with
  | .nil => rfl
  | .cons key value rest =>
    simp [noArrInArrMembers] at h
    by_cases hk : key = "sql"
    · cases value <;> simp [filterItems, filterSpecMembers, hk, filterItems_eq_spec rest h.2]
    · cases value with
      | obj ms2 =>
        have h3 : noArrInArrMembers ms2 = true := by simpa [noArrInArr] using h.1
        simp [filterItems, filterSpecMembers, hk, filterSpec,
              filterItems_eq_spec ms2 h3, filterItems_eq_spec rest h.2]
      | arr l2 =>
        have h3 : noArrInArrElems l2 = true := by simpa [noArrInArr] using h.1
        simp [filterItems, filterSpecMembers, hk, filterSpec,
              filterListElems_eq_spec l2 h3, filterItems_eq_spec rest h.2]
      | null =>
        simp [filterItems, filterSpecMembers, hk, filterSpec, filterItems_eq_spec rest h.2]
      | bool b =>
        simp [filterItems, filterSpecMembers, hk, filterSpec, filterItems_eq_spec rest h.2]
      | num n =>
        simp [filterItems, filterSpecMembers, hk, filterSpec, filterItems_eq_spec rest h.2]
      | str s =>
        simp [filterItems, filterSpecMembers, hk, filterSpec, filterItems_eq_spec rest h.2]
theorem filterListElems_eq_spec (l : JsonList) (h : noArrInArrElems l = true) :
    filterListElems l = filterSpecElems l := by
  match l with
  | .nil => rfl
  | .cons v rest =>
    cases v with
    | arr l2 => simp [noArrInArrElems] at h
    | obj ms =>
      simp [noArrInArrElems, noArrInArr] at h
      simp [filterListElems, filterSpecElems, filterSpec,
            filterItems_eq_spec ms h.1, filterListElems_eq_spec rest h.2]
    | null =>
      simp [noArrInArrElems, noArrInArr] at h
      simp [filterListElems, filterSpecElems, filterSpec, filterListElems_eq_spec rest h]
    | bool b =>
      simp [noArrInArrElems, noArrInArr] at h
      simp [filterListElems, filterSpecElems, filterSpec, filterListElems_eq_spec rest h]
    | num n =>
      simp [noArrInArrElems, noArrInArr] at h
      simp [filterListElems, filterSpecElems, filterSpec, filterListElems_eq_spec rest h]
    | str s =>
      simp [noArrInArrElems, noArrInArr] at h
      simp [filterListElems, filterSpecElems, filterSpec, filterListElems_eq_spec rest h]
end

/-- C1 counterexample: the claim says the filter removes the blocked key
at every nesting depth, including elements of sequences that are
themselves sequences. On the tree c1ex, whose blocked key sits inside a
sequence nested directly inside another sequence, the enabled filter
returns the tree unchanged and the blocked key "sql" is still present in
the result: the list comprehension of filter_event_data recurses only into
dict elements of a list and passes nested lists through untouched. -/
theorem c1_nested_seq_counterexample :
    filter_event_data true c1ex = some c1ex ∧ containsKey "sql" c1ex = true :=
  ⟨rfl, rfl⟩

/-- C1 amended: on every mapping whose tree has no sequence directly
inside another sequence, the enabled filter computes exactly the spec
traversal (drop blocked keys in mappings, recurse into surviving values
and into mapping elements of sequences, scalars unchanged), and the
result contains the blocked key "sql" at no depth. Sequences nested
directly inside sequences are passed through unfiltered by the code, so
they are excluded. -/
theorem c1_filter_spec_agreement (ms : JsonMembers) (h : noArrInArr (Json.obj ms) = true) :
    filter_event_data true (Json.obj ms) = some (filterSpec (Json.obj ms)) ∧
    containsKey "sql" (filterSpec (Json.obj ms)) = false := by
  constructor
  · have he := filterItems_eq_spec ms (by simpa [noArrInArr] using h)
    simp [filter_event_data, filterSpec, he]
  · exact filterSpec_no_sql (Json.obj ms)

/-- C1 witness: the amended theorem applied to the concrete depth-3 tree
c1wit. -/
theorem c1_filter_spec_agreement_witness :
    filter_event_data true (Json.obj c1wit) = some (filterSpec (Json.obj c1wit)) ∧
    containsKey "sql" (filterSpec (Json.obj c1wit)) = false :=
  c1_filter_spec_agreement c1wit (by rfl)

/-- C2: the claim says the filter returns a result and never raises for
every well-formed JSON-like input, mapping, sequence or scalar at the top
level. With filtering enabled the code calls event_data.items() on its
argument, so a top-level sequence or scalar raises AttributeError
(modelled as none); the relay feeds it any value json.loads produces, so
an upstream data line carrying a top-level JSON array kills the per-line
loop, and no handler in stream_agent_response catches the exception. -/
theorem c2_filter_nondict_crash :
    filter_event_data true (Json.arr (.cons (Json.num 1) (.cons (Json.num 2) .nil))) = none ∧
    filter_event_data true (Json.num 5) = none ∧
    processLine true "data: [1,2]" = none ∧
    runLines true ["data: [1,2]"] = ([], true) ∧
    stream_agent_response true (Upstream.response 200 "" ["data: [1,2]"] none)
      = StreamResult.crash [] :=
  ⟨rfl, rfl, rfl, rfl, rfl⟩

/-! ## Properties of the SSE relay -/

theorem data_append (a b : String) : (a ++ b).data = a.data ++ b.data := rfl

theorem countNl_append (a b : String) : countNl (a ++ b) = countNl a + countNl b := by
  simp [countNl, data_append, List.count_append]

theorem count_pyStripChars_le (l : List Char) (c : Char) :
    (pyStripChars l).count c ≤ l.count c := by
  have h1 : List.Sublist (l.dropWhile pyIsSpace) l := List.dropWhile_sublist _
  have h2 : List.Sublist ((l.dropWhile pyIsSpace).reverse.dropWhile pyIsSpace)
      (l.dropWhile pyIsSpace).reverse := List.dropWhile_sublist _
  have h3 : List.Sublist (pyStripChars l) (l.dropWhile pyIsSpace) := by
    simpa [pyStripChars] using h2.reverse
  exact (h3.trans h1).count_le c

theorem countNl_pyStrip_le (s : String) : countNl (pyStrip s) ≤ countNl s :=
  count_pyStripChars_le s.data '\n'

theorem countNl_pyDrop_le (s : String) (n : Nat) : countNl (pyDrop s n) ≤ countNl s :=
  (List.drop_sublist n s.data).count_le '\n'

theorem hexDigitChar_ne_nl (n : Nat) (h : n < 16) : hexDigitChar n ≠ '\n' := by
  unfold hexDigitChar
  interval_cases n <;> decide

theorem digitChar_ne_nl (n : Nat) (h : n < 10) : digitChar n ≠ '\n' := by
  unfold digitChar
  interval_cases n <;> decide

theorem count_escapeChar (c : Char) : (escapeChar c).count '\n' = 0 := by
  unfold escapeChar
  split_ifs with h1 h2 h3 h4 h5 h6
  · decide
  · decide
  · decide
  · decide
  · decide
  · have ha : hexDigitChar (c.toNat / 16) ≠ '\n' :=
      hexDigitChar_ne_nl _ (by omega)
    have hb : hexDigitChar (c.toNat % 16) ≠ '\n' :=
      hexDigitChar_ne_nl _ (Nat.mod_lt _ (by norm_num))
    simp [List.count_cons, ha.symm, hb.symm]
  · have : c ≠ '\n' := h3
    simp [List.count_cons, this.symm]

theorem count_escapeBody (l : List Char) : (escapeBody l).count '\n' = 0 := by
  induction l with
  | nil => rfl
  | cons c rest ih => simp [escapeBody, List.count_append, count_escapeChar, ih]

theorem countNl_escapeString (s : String) : countNl (escapeString s) = 0 := by
  simp [countNl, escapeString, List.count_cons, List.count_append, count_escapeBody]

theorem count_natToDigits (fuel n : Nat) : (natToDigits fuel n).count '\n' = 0 := by
  induction fuel generalizing n with
  | zero => rfl
  | succ f ih =>
    unfold natToDigits
    split_ifs with h
    · have := digitChar_ne_nl n h
      simp [List.count_cons, this.symm]
    · have h2 := digitChar_ne_nl (n % 10) (Nat.mod_lt _ (by norm_num))
      simp [List.count_append, List.count_cons, ih, h2.symm]

theorem countNl_intToStr (n : Int) : countNl (intToStr n) = 0 := by
  unfold intToStr
  split_ifs with h
  · simp [countNl, List.count_cons, count_natToDigits]
  · simp [countNl, count_natToDigits]

mutual
theorem countNl_dumps (j : Json) : countNl (json_dumps j) = 0 := by
  match j with
  | Json.null => decide
  | Json.bool true => decide
  | Json.bool false => decide
  | Json.num n => simpa [json_dumps] using countNl_intToStr n
  | Json.str s => simpa [json_dumps] using countNl_escapeString s
  | Json.arr l =>
    have := countNl_dumpsElems l
    simp [json_dumps, countNl_append, this]
    decide
  | Json.obj ms =>
    have := countNl_dumpsMembers ms
    simp [json_dumps, countNl_append, this]
    decide
theorem countNl_dumpsElems (l : JsonList) : countNl (dumpsElems l) = 0 := by
  match l with
  | .nil => decide
  | .cons v .nil => simpa [dumpsElems] using countNl_dumps v
  | .cons v (.cons w rest) =>
    have h1 := countNl_dumps v
    have h2 := countNl_dumpsElems (JsonList.cons w rest)
    simp [dumpsElems, countNl_append, h1, h2]
    decide
theorem countNl_dumpsMembers (ms : JsonMembers) : countNl (dumpsMembers ms) = 0 := by
  match ms with
  | .nil => decide
  | .cons key value .nil =>
    have h1 := countNl_escapeString key
    have h2 := countNl_dumps value
    simp [dumpsMembers, countNl_append, h1, h2]
    decide
  | .cons key value (.cons k2 v2 rest) =>
    have h1 := countNl_escapeString key
    have h2 := countNl_dumps value
    have h3 := countNl_dumpsMembers (JsonMembers.cons k2 v2 rest)
    simp [dumpsMembers, countNl_append, h1, h2, h3]
    decide
end

theorem countNl_errorEvent (m : String) : countNl (errorEvent m) = 3 := by
  have h := countNl_dumps (Json.obj (.cons "error" (Json.str m) .nil))
  simp [errorEvent, countNl_append, h]
  decide

theorem countNl_processLine (removeSql : Bool) (line out : String)
    (hl : countNl line = 0) (hp : processLine removeSql line = some out) :
    countNl out ≤ 1 := by
  have he : countNl ("event: " : String) = 0 := by decide
  have hd : countNl ("data: " : String) = 0 := by decide
  have hn : countNl ("\n" : String) = 1 := by decide
  unfold processLine at hp
  split_ifs at hp with h1 h2 h3
  · rw [Option.some_inj] at hp
    subst hp
    have b1 := countNl_pyStrip_le (pyDrop line 6)
    have b2 := countNl_pyDrop_le line 6
    rw [countNl_append, countNl_append, he, hn]
    omega
  · rcases hj : json_loads (pyStrip (pyDrop line 5)) with _ | data
    · rw [hj] at hp
      dsimp only at hp
      rw [Option.some_inj] at hp
      subst hp
      have b1 := countNl_pyStrip_le (pyDrop line 5)
      have b2 := countNl_pyDrop_le line 5
      rw [countNl_append, countNl_append, hd, hn]
      omega
    · rw [hj] at hp
      dsimp only at hp
      rcases hf : filter_event_data removeSql data with _ | filtered
      · rw [hf] at hp
        cases hp
      · rw [hf] at hp
        rw [Option.some_inj] at hp
        subst hp
        rw [countNl_append, countNl_append, hd, hn, countNl_dumps]
  · rw [Option.some_inj] at hp
    subst hp
    rw [countNl_append, hn, hl]
  · rw [Option.some_inj] at hp
    subst hp
    rw [hn]

theorem mem_runLines (removeSql : Bool) (ls : List String) (o : String)
    (ho : o ∈ (runLines removeSql ls).1) :
    ∃ l, l ∈ ls ∧ processLine removeSql l = some o := by
  induction ls with
  | nil => simp [runLines] at ho
  | cons line rest ih =>
    rw [runLines] at ho
    rcases hp : processLine removeSql line with _ | out
    · rw [hp] at ho
      simp at ho
    · rw [hp] at ho
      rcases hr : runLines removeSql rest with ⟨outs, crashed⟩
      rw [hr] at ho
      simp at ho
      rcases ho with rfl | ho
      · exact ⟨line, by simp, hp⟩
      · obtain ⟨l, hml, hpl⟩ := ih (by rw [hr]; exact ho)
        exact ⟨l, by simp [hml], hpl⟩

/-- C3: once streaming has begun, a trailing upstream transport failure
makes the relay emit the chunks of the delivered lines followed by exactly
one terminal synthetic error event, and nothing after it; no chunk
produced from an upstream line can equal a synthetic error event (each
such chunk carries at most one newline while the synthetic event carries
three), so at most one synthetic error event is ever emitted per run; a
run without transport failure emits none, and a connection failure before
streaming emits exactly the one event. The hypotheses state that upstream
lines carry no newline (aiter_lines splits on newlines) and that no line
crashes the loop. -/
theorem c3_midstream_single_error (removeSql : Bool) (lines : List String) (msg body : String)
    (hnl : ∀ l ∈ lines, countNl l = 0)
    (hok : (runLines removeSql lines).2 = false) :
    stream_agent_response removeSql (Upstream.response 200 body lines (some msg))
      = StreamResult.chunks ((runLines removeSql lines).1 ++ [errorEvent msg])
    ∧ (∀ o ∈ (runLines removeSql lines).1, ∀ m, o ≠ errorEvent m)
    ∧ stream_agent_response removeSql (Upstream.response 200 body lines none)
      = StreamResult.chunks (runLines removeSql lines).1
    ∧ stream_agent_response removeSql (Upstream.connectError msg)
      = StreamResult.chunks [errorEvent msg] := by
  refine ⟨?_, ?_, ?_, rfl⟩
  · rcases hr : runLines removeSql lines with ⟨outs, crashed⟩
    rw [hr] at hok
    simp at hok
    subst hok
    simp [stream_agent_response, hr]
  · intro o ho m heq
    obtain ⟨l, hml, hp⟩ := mem_runLines removeSql lines o ho
    have hb := countNl_processLine removeSql l o (hnl l hml) hp
    rw [heq, countNl_errorEvent] at hb
    omega
  · rcases hr : runLines removeSql lines with ⟨outs, crashed⟩
    rw [hr] at hok
    simp at hok
    subst hok
    simp [stream_agent_response, hr]

/-- C3 witness: the theorem applied to a concrete two-line run with a
trailing transport failure. -/
theorem c3_midstream_single_error_witness :
    stream_agent_response true (Upstream.response 200 "" ["event: a", ""] (some "boom"))
      = StreamResult.chunks ((runLines true ["event: a", ""]).1 ++ [errorEvent "boom"]) :=
  (c3_midstream_single_error true ["event: a", ""] "boom" ""
    (by intro l hl; simp at hl; rcases hl with rfl | rfl <;> decide)
    (by decide)).1

/-- C7: on the upstream lines of the claim, with filtering enabled, the
relay emits the event line, then a data line whose JSON payload is exactly
the object mapping x to 1 (the second conjunct pins the payload down as
parsed JSON, independent of serialization spacing), then a blank line. -/
theorem c7_sse_passthrough :
    stream_agent_response true
        (Upstream.response 200 ""
          ["event: a", "data: \x7b\"sql\":\"X\",\"x\":1\x7d", ""] none)
      = StreamResult.chunks ["event: a\n", "data: \x7b\"x\": 1\x7d\n", "\n"]
    ∧ json_loads "\x7b\"x\": 1\x7d" = some (Json.obj (.cons "x" (Json.num 1) .nil)) :=
  ⟨rfl, rfl⟩

/-- C8: every upstream data line whose extracted payload fails to parse
as JSON is forwarded as the data marker followed by the extracted payload
text unchanged, for any filter configuration. -/
theorem c8_nonjson_data_passthrough (removeSql : Bool) (line : String)
    (h1 : pyStartsWith line "data:" = true)
    (h2 : pyStrip line ≠ "")
    (h3 : json_loads (pyStrip (pyDrop line 5)) = none) :
    processLine removeSql line = some ("data: " ++ pyStrip (pyDrop line 5) ++ "\n") := by
  have hne : pyStartsWith line "event:" = false := by
    rcases line with ⟨cs⟩
    rcases cs with _ | ⟨c, rest⟩
    · exact absurd h1 (by decide)
    · have h1b : (['d', 'a', 't', 'a', ':'] : List Char).isPrefixOf (c :: rest) = true := h1
      simp [List.isPrefixOf] at h1b
      have hc : c = 'd' := h1b.1.symm
      subst hc
      show (['e', 'v', 'e', 'n', 't', ':'] : List Char).isPrefixOf ('d' :: rest) = false
      simp [List.isPrefixOf]
  rw [processLine, if_pos h2, hne]
  simp [h1, h3]

/-- C8 witness: the upstream line "data: not-json" is forwarded
unchanged. -/
theorem c8_nonjson_data_passthrough_witness :
    processLine false "data: not-json" = some "data: not-json\n" := by
  have h := c8_nonjson_data_passthrough false "data: not-json" (by decide) (by decide) (by rfl)
  rw [h]
  rfl

/-- C9: any upstream response with a status other than 200, observed
before any line is read, produces the single non-streaming failure result
carrying the upstream status and the full error body; the result is a
preflight value, not a chunk stream, so zero SSE bytes are emitted. -/
theorem c9_preflight_rejection (removeSql : Bool) (status : Nat) (body : String)
    (lines : List String) (midErr : Option String) (h : status ≠ 200) :
    stream_agent_response removeSql (Upstream.response status body lines midErr)
      = StreamResult.preflight status ("Cortex API error: " ++ body) := by
  simp [stream_agent_response, h]

/-- C9 witness: upstream status 500 with body "oops". -/
theorem c9_preflight_rejection_witness :
    stream_agent_response false (Upstream.response 500 "oops" ["event: a"] none)
      = StreamResult.preflight 500 ("Cortex API error: " ++ "oops") :=
  c9_preflight_rejection false 500 "oops" ["event: a"] none (by decide)

/-! ## Properties of the session codec and guard -/

/-- C5: verifying a freshly issued token immediately, under the same
signing configuration, returns exactly the issued identity. -/
theorem c5_issue_verify_roundtrip (c : Codec) (u : String) (now max_age : Nat) :
    verify_session_cookie c max_age now (create_session_cookie c now u) = some (Json.str u) := by
  simp [verify_session_cookie, create_session_cookie, serializer_dumps, serializer_loads,
        jsonGet, jsonGetMembers, Nat.sub_self]

/-- C6: verification returns none (the invalid outcome, not a thrown
error) for every token whose signature does not match the keyed signature
of its payload and timestamp - which is what any byte-level tamper of an
issued token amounts to at the interface of the signing library - and for
every token older than max_age. -/
theorem c6_verify_invalid_not_thrown (c : Codec) (max_age now : Nat) (t : SignedToken)
    (h : t.tag ≠ c.mac c.key t.payload t.ts ∨ now - t.ts > max_age) :
    verify_session_cookie c max_age now t = none := by
  unfold verify_session_cookie serializer_loads
  rcases h with h | h
  · simp [h]
  · by_cases hs : t.tag = c.mac c.key t.payload t.ts
    · simp [hs, h]
    · simp [hs]

/-- C6 witness: a token with a wrong signature and a correctly signed
token past its max_age are both rejected. -/
theorem c6_verify_invalid_not_thrown_witness :
    verify_session_cookie exCodec 100 50 badTok = none
    ∧ verify_session_cookie exCodec 10 100 oldTok = none :=
  ⟨c6_verify_invalid_not_thrown exCodec 100 50 badTok (Or.inl (by decide)),
   c6_verify_invalid_not_thrown exCodec 10 100 oldTok (Or.inr (by decide))⟩

/-- C10: a token bearing a valid, unexpired signature whose payload lacks
a username entry, or maps it to the empty string, passes the signature and
expiry checks yet yields no usable identity, and the session guard rejects
it with exactly the same 401 failure it produces for any token whose
verification returns none; such a token is never accepted. -/
theorem c10_identityless_token_rejected (c : Codec) (max_age now ts : Nat) (payload : Json)
    (hfresh : now - ts ≤ max_age)
    (hid : jsonGet payload "username" = none ∨
           jsonGet payload "username" = some (Json.str "")) :
    verify_session_cookie c max_age now ⟨payload, ts, c.mac c.key payload ts⟩
        = jsonGet payload "username"
    ∧ get_current_user c max_age now (some ⟨payload, ts, c.mac c.key payload ts⟩)
        = Except.error (401, "Invalid or expired session")
    ∧ ∀ t, verify_session_cookie c max_age now t = none →
        get_current_user c max_age now (some t)
          = Except.error (401, "Invalid or expired session") := by
  have hv : verify_session_cookie c max_age now ⟨payload, ts, c.mac c.key payload ts⟩
      = jsonGet payload "username" := by
    unfold verify_session_cookie serializer_loads
    simp [Nat.not_lt.mpr hfresh]
  refine ⟨hv, ?_, ?_⟩
  · simp only [get_current_user]
    rw [hv]
    rcases hid with h | h
    · rw [h]
    · rw [h]
      simp [pyTruthy]
  · intro t ht
    simp only [get_current_user]
    rw [ht]

/-- C10 witness: a correctly signed fresh token with an empty payload is
rejected like an invalid token. -/
theorem c10_identityless_token_rejected_witness :
    get_current_user exCodec 100 50
        (some ⟨Json.obj JsonMembers.nil, 50, exCodec.mac exCodec.key (Json.obj JsonMembers.nil) 50⟩)
      = Except.error (401, "Invalid or expired session") :=
  (c10_identityless_token_rejected exCodec 100 50 50 (Json.obj JsonMembers.nil) (by decide) (Or.inl rfl)).2.1

/-- C4 counterexample: the claim says the rejection never distinguishes a
missing from an invalid credential to the caller; in the code the two
rejections carry the same 401 status but different detail strings, so the
two failure results are distinguishable. -/
theorem c4_distinct_details_counterexample :
    get_current_user exCodec 100 50 none = Except.error (401, "Not authenticated")
    ∧ get_current_user exCodec 100 50 (some badTok)
        = Except.error (401, "Invalid or expired session")
    ∧ get_current_user exCodec 100 50 none ≠ get_current_user exCodec 100 50 (some badTok) := by
  refine ⟨rfl, rfl, ?_⟩
  intro h
  rw [show get_current_user exCodec 100 50 none
        = Except.error (401, "Not authenticated") from rfl,
      show get_current_user exCodec 100 50 (some badTok)
        = Except.error (401, "Invalid or expired session") from rfl] at h
  simp at h

/-- C4 amended: the guard fails with HTTP 401 when the credential is
absent and with HTTP 401 when verification yields no identity, and returns
the verified identity otherwise; expired and tampered tokens receive the
identical failure value, but the 401 detail string differs between a
missing credential and a failed verification, so those two cases are
distinguishable to the caller. -/
theorem c4_guard_unauthenticated (c : Codec) (max_age now : Nat) :
    get_current_user c max_age now none = Except.error (401, "Not authenticated")
    ∧ (∀ t, verify_session_cookie c max_age now t = none →
        get_current_user c max_age now (some t)
          = Except.error (401, "Invalid or expired session"))
    ∧ (∀ t u, verify_session_cookie c max_age now t = some u → pyTruthy u = true →
        get_current_user c max_age now (some t) = Except.ok u) := by
  refine ⟨rfl, ?_, ?_⟩
  · intro t ht
    simp only [get_current_user]
    rw [ht]
  · intro t u ht hu
    simp only [get_current_user]
    rw [ht]
    simp [hu]

/-- C4 witness: the amended theorem applied to a tampered token and to a
valid token. -/
theorem c4_guard_unauthenticated_witness :
    get_current_user exCodec 100 50 (some badTok)
        = Except.error (401, "Invalid or expired session")
    ∧ get_current_user exCodec 100 50 (some oldTok) = Except.ok (Json.str "alice") :=
  ⟨(c4_guard_unauthenticated exCodec 100 50).2.1 badTok rfl,
   (c4_guard_unauthenticated exCodec 100 50).2.2 oldTok (Json.str "alice") rfl rfl⟩

end CortexRelay
